import Mathlib

/-!
Verification of the culinary-education backend (src/main.py, src/schemas.py).

The repository's document-store gateway (database.py: `db`, `create_document`,
`get_documents`) is not part of the sources; its behaviour, and the store's
evaluation of the filter dictionaries that main.py builds, are modelled from
the specification (spec.md sections 4.1, 4.2 and 9).  Everything else is a
direct shallow embedding of main.py and schemas.py.
-/

namespace CulinaryBackend

/-- Checks that the pattern (second argument) occurs at the head of the
character list (first argument). -/
def startsWithChars : List Char → List Char → Bool
  | _, [] => true
  | [], _ :: _ => false
  | c :: cs, p :: ps => c == p && startsWithChars cs ps

/-- Checks that the pattern (second argument) occurs contiguously anywhere in
the character list (first argument). -/
def hasSubChars : List Char → List Char → Bool
  | [], pat => pat.isEmpty
  | c :: cs, pat => startsWithChars (c :: cs) pat || hasSubChars cs pat

/-- Character-wise lowercasing of a string's characters, the model of
Python lower-casing for case-insensitive comparison. -/
def lowerChars (l : List Char) : List Char :=
  l.map Char.toLower

/-- Modelled from the spec: the store's regex operator with the "i" option
realises a case-insensitive unanchored substring test (spec sections 4.2
and 9).  `ciSubstr pat s` is true when `pat` occurs as a case-insensitive
substring of `s`. -/
def ciSubstr (pat s : String) : Bool :=
  hasSubChars (lowerChars s.toList) (lowerChars pat.toList)

/-- A stored value: the value shapes that occur in this system's documents.
`oid` models the storage-internal ObjectId identifier, `dt` a date/time
value (as an abstract instant). -/
inductive BVal where
  | str (s : String)
  | strList (l : List String)
  | bool (b : Bool)
  | oid (n : Nat)
  | dt (t : Int)
  | null
deriving DecidableEq, Repr

/-- A document is a Python-dict-like association list from field names to
values (keys unique in every reachable document). -/
abbrev Doc := List (String × BVal)

/-- First-match lookup of a key in a document, mirroring Python dict access. -/
def dlookup (d : Doc) (k : String) : Option BVal :=
  match d with
  | [] => none
  | (k', v) :: rest => if k' = k then some v else dlookup rest k

/-- Python dict item assignment `d[k] = v`: overwrite in place when the key
exists, append otherwise. -/
def dictSet (d : Doc) (k : String) (v : BVal) : Doc :=
  match dlookup d k with
  | some _ => d.map (fun kv => (kv.1, if kv.1 = k then v else kv.2))
  | none => d ++ [(k, v)]

/-- Python dict `pop` of a key (keys are unique in every reachable
document, so removing every occurrence coincides with pop). -/
def popAll (d : Doc) (k : String) : Doc :=
  match d with
  | [] => []
  | kv :: rest => if kv.1 = k then popAll rest k else kv :: popAll rest k

/-- A single field condition of the filter shapes main.py builds:
a case-insensitive regex on a string field, an `elemMatch` of such a regex
over a list field, or plain equality to a boolean. -/
inductive FCond where
  | regexI (pat : String)
  | elemMatchRegexI (pat : String)
deriving DecidableEq, Repr

/-- A top-level value of the filter dictionary: a field condition, a plain
boolean (the `active` filter of listAds), or the disjunction list stored
under the key written as dollar-or. -/
inductive FVal where
  | condV (c : FCond)
  | boolV (b : Bool)
  | orV (l : List (String × FCond))
deriving DecidableEq, Repr

/-- The filter dictionary main.py passes to the gateway, as an association
list mirroring the Python dict. -/
abbrev Filter := List (String × FVal)

/-- Python `dict.setdefault k v`: insert the pair only when the key is not
already present. -/
def setdefault (fd : Filter) (k : String) (v : FVal) : Filter :=
  match fd.lookup k with
  | some _ => fd
  | none => fd ++ [(k, v)]

/-- Modelled from the spec: the store's evaluation of one field condition
against the value found under the field (spec sections 4.2 and 9): the regex
means case-insensitive substring, `elemMatch` means some element of the list
matches, and a condition on a missing or differently-typed field fails. -/
def evalFCond (c : FCond) (v : Option BVal) : Bool :=
  match c, v with
  | .regexI pat, some (.str s) => ciSubstr pat s
  | .regexI _, _ => false
  | .elemMatchRegexI pat, some (.strList l) => l.any (fun s => ciSubstr pat s)
  | .elemMatchRegexI _, _ => false

/-- Modelled from the spec: evaluation of one top-level filter entry against
a document.  The dollar-or entry is a logical OR of its field conditions; a
boolean entry is equality on the field. -/
def evalEntry (d : Doc) (e : String × FVal) : Bool :=
  match e.2 with
  | .condV c => evalFCond c (dlookup d e.1)
  | .boolV b => match dlookup d e.1 with
    | some (.bool b2) => b == b2
    | _ => false
  | .orV l => l.any (fun fc => evalFCond fc.2 (dlookup d fc.1))

/-- Modelled from the spec: a document matches a filter when every top-level
entry holds; the empty filter matches everything (spec section 4.1). -/
def evalFilter (fd : Filter) (d : Doc) : Bool :=
  fd.all (evalEntry d)

/-- Modelled from the spec: gateway `find` (spec section 4.1) — all documents
of the collection matching the filter, in storage order. -/
def get_documents (coll : List Doc) (fd : Filter) : List Doc :=
  coll.filter (evalFilter fd)

/-- Modelled from the spec: identifiers leave the gateway as opaque strings
(spec section 4.1); the textual rendering of an ObjectId. -/
def objIdStr (n : Nat) : String :=
  toString n

/-- Modelled from the spec: the ISO-8601 textual rendering of a date/time
value (spec sections 4.1 and 6); the calendar formatting itself is library
code outside the repository, modelled as an injective rendering of the
abstract instant. -/
def isoformat (t : Int) : String :=
  "1970-01-01T" ++ toString t

/-- Python `str()` applied to a stored value; in every reachable state it is
only applied to an ObjectId. -/
def bvalStr : BVal → String
  | .oid n => objIdStr n
  | .str s => s
  | .bool b => if b then "True" else "False"
  | .dt t => isoformat t
  | .strList _ => ""
  | .null => "None"

/-- The per-value step of serialize_doc's datetime loop (main.py lines
30-36): a date/time value becomes its ISO-8601 string, anything else is
unchanged. -/
def serialBVal : BVal → BVal
  | .dt t => .str (isoformat t)
  | v => v

/-- serialize_doc (main.py lines 23-37): on a non-empty document, pop the
storage-internal identifier into a public string field named id, then
convert every date/time value to its ISO-8601 string. -/
def serialize_doc (doc : Doc) : Doc :=
  if doc.isEmpty then doc else
  let d :=
    match dlookup doc "_id" with
    | some v => dictSet (popAll doc "_id") "id" (.str (bvalStr v))
    | none => doc
  d.map (fun kv => (kv.1, serialBVal kv.2))

/-- Rendering of an optional string field under Pydantic model_dump: an
absent optional field is stored as null. -/
def optStr : Option String → BVal
  | none => .null
  | some s => .str s

/-- A stored recipe document (schemas.py Recipe, plus the generated
identifier). -/
structure RecipeDoc where
  oid : Nat
  title : String
  description : Option String
  ingredients : List String
  steps : List String
  tags : List String
  image_url : Option String
  video_url : Option String
deriving DecidableEq, Repr

/-- The dict form of a stored recipe document. -/
def RecipeDoc.toDoc (r : RecipeDoc) : Doc :=
  [("_id", .oid r.oid), ("title", .str r.title),
   ("description", optStr r.description),
   ("ingredients", .strList r.ingredients), ("steps", .strList r.steps),
   ("tags", .strList r.tags), ("image_url", optStr r.image_url),
   ("video_url", optStr r.video_url)]

/-- A stored lesson document (schemas.py Lesson). -/
structure LessonDoc where
  oid : Nat
  title : String
  content : String
  level : Option String
  tags : List String
  video_url : Option String
deriving DecidableEq, Repr

/-- The dict form of a stored lesson document. -/
def LessonDoc.toDoc (l : LessonDoc) : Doc :=
  [("_id", .oid l.oid), ("title", .str l.title), ("content", .str l.content),
   ("level", optStr l.level), ("tags", .strList l.tags),
   ("video_url", optStr l.video_url)]

/-- A stored video document (schemas.py Video). -/
structure VideoDoc where
  oid : Nat
  title : String
  description : Option String
  video_url : String
  tags : List String
deriving DecidableEq, Repr

/-- The dict form of a stored video document. -/
def VideoDoc.toDoc (v : VideoDoc) : Doc :=
  [("_id", .oid v.oid), ("title", .str v.title),
   ("description", optStr v.description), ("video_url", .str v.video_url),
   ("tags", .strList v.tags)]

/-- A stored ad document (schemas.py Ad). -/
structure AdDoc where
  oid : Nat
  title : String
  body : Option String
  image_url : Option String
  link_url : Option String
  active : Bool
deriving DecidableEq, Repr

/-- The dict form of a stored ad document. -/
def AdDoc.toDoc (a : AdDoc) : Doc :=
  [("_id", .oid a.oid), ("title", .str a.title), ("body", optStr a.body),
   ("image_url", optStr a.image_url), ("link_url", optStr a.link_url),
   ("active", .bool a.active)]

/-- The filter dictionary built by list_recipes (main.py lines 110-121):
Python truthiness makes a missing or empty q (resp. tag) skip its branch;
the tag condition is added with setdefault under the key tags. -/
def recipeFilter (q tag : Option String) : Filter :=
  let fd : Filter := []
  let fd : Filter :=
    match q with
    | some s =>
      if s = "" then fd else
        fd ++ [("$or",
          .orV [("title", .regexI s), ("description", .regexI s),
                ("ingredients", .elemMatchRegexI s),
                ("tags", .elemMatchRegexI s)])]
    | none => fd
  match tag with
  | some t =>
    if t = "" then fd else
      setdefault fd "tags" (.condV (.elemMatchRegexI t))
  | none => fd

/-- The filter dictionary built by list_lessons (main.py lines 125-133). -/
def lessonFilter (q : Option String) : Filter :=
  match q with
  | some s =>
    if s = "" then [] else
      [("$or",
        .orV [("title", .regexI s), ("content", .regexI s),
              ("tags", .elemMatchRegexI s)])]
  | none => []

/-- The filter dictionary built by list_videos (main.py lines 145-153). -/
def videoFilter (q : Option String) : Filter :=
  match q with
  | some s =>
    if s = "" then [] else
      [("$or",
        .orV [("title", .regexI s), ("description", .regexI s),
              ("tags", .elemMatchRegexI s)])]
  | none => []

/-- The filter dictionary built by list_ads (main.py lines 137-141): a None
active adds no entry, a boolean adds an equality entry. -/
def adFilter (active : Option Bool) : Filter :=
  match active with
  | none => []
  | some b => [("active", .boolV b)]

/-- list_recipes (main.py lines 110-123) over a store of recipe documents:
build the filter from q and tag, fetch, serialize each document. -/
def list_recipes (store : List RecipeDoc) (q tag : Option String) : List Doc :=
  (get_documents (store.map RecipeDoc.toDoc) (recipeFilter q tag)).map serialize_doc

/-- list_lessons (main.py lines 125-135). -/
def list_lessons (store : List LessonDoc) (q : Option String) : List Doc :=
  (get_documents (store.map LessonDoc.toDoc) (lessonFilter q)).map serialize_doc

/-- list_videos (main.py lines 145-155). -/
def list_videos (store : List VideoDoc) (q : Option String) : List Doc :=
  (get_documents (store.map VideoDoc.toDoc) (videoFilter q)).map serialize_doc

/-- list_ads (main.py lines 137-143); the route's declared default supplies
active = some true when the caller omits the parameter. -/
def list_ads (store : List AdDoc) (active : Option Bool) : List Doc :=
  (get_documents (store.map AdDoc.toDoc) (adFilter active)).map serialize_doc

/-- list_ads as invoked with no active parameter: FastAPI fills the declared
default value True (main.py line 138). -/
def list_ads_default (store : List AdDoc) : List Doc :=
  list_ads store (some true)

/-- A validated Contact payload (schemas.py Contact). -/
structure ContactPayload where
  phone : String
  email : String
  address : String
deriving DecidableEq, Repr

/-- Pydantic model_dump of a Contact payload. -/
def ContactPayload.dump (p : ContactPayload) : Doc :=
  [("phone", .str p.phone), ("email", .str p.email), ("address", .str p.address)]

/-- The contact collection together with the store's identifier counter. -/
structure ContactState where
  nextId : Nat
  docs : List Doc
deriving DecidableEq, Repr

/-- Mongo `$set` of the given fields on one document, field by field. -/
def applySet (d : Doc) (data : Doc) : Doc :=
  data.foldl (fun acc kv => dictSet acc kv.1 kv.2) d

/-- The first storage call of set_contact (main.py line 100):
`find_one` with the empty filter returns the first stored document, if any. -/
def contactFindOne (s : ContactState) : Option Doc :=
  s.docs.head?

/-- Python `str()` of a document's identifier field; every reachable stored
document carries the field, so the fallback is unreachable. -/
def docIdStr (d : Doc) : String :=
  match dlookup d "_id" with
  | some v => bvalStr v
  | none => ""

/-- The second storage call of set_contact (main.py lines 98-106), acting on
the result `observed` of the earlier find_one.  In the update branch,
update_one sets the dumped fields plus updated_at on the document whose
identifier matches; in the insert branch, create_document (modelled from the
spec, section 4.1: assign a fresh identifier and persist the document) is
called with the raw payload — the dict carrying updated_at is not the
argument there. -/
def contactWrite (now : Int) (p : ContactPayload) (observed : Option Doc)
    (s : ContactState) : ContactState × String :=
  let data := p.dump ++ [("updated_at", .dt now)]
  match observed with
  | some existing =>
    ({ s with
       docs := s.docs.map (fun d =>
         if dlookup d "_id" = dlookup existing "_id" then applySet d data else d) },
     docIdStr existing)
  | none =>
    ({ nextId := s.nextId + 1,
       docs := s.docs ++ [("_id", .oid s.nextId) :: p.dump] },
     objIdStr s.nextId)

/-- set_contact (main.py lines 92-106): a read (find_one) followed by a
write decided by what the read observed. -/
def set_contact (now : Int) (p : ContactPayload) (s : ContactState) :
    ContactState × String :=
  contactWrite now p (contactFindOne s) s

/-- get_contact (main.py lines 157-162): error when the store handle is
absent; otherwise the serialized first contact document, or the empty
object when none exists. -/
def get_contact (dbUp : Bool) (s : ContactState) : Except String Doc :=
  if !dbUp then .error "Database not available" else
  match s.docs.head? with
  | none => .ok []
  | some d => .ok (serialize_doc d)

/-- Modelled from the spec: a well-formed absolute URL (spec section 3) —
an http or https scheme followed by a non-empty remainder. -/
def isValidUrl (u : String) : Bool :=
  (hasSubChars u.toList "://".toList) &&
  (startsWithChars u.toList "http".toList) && !u.isEmpty

/-- Modelled from the spec: a syntactically valid email address (spec
section 3) — exactly one at-sign, a non-empty local part, a domain that is
non-empty and contains a dot, and no spaces. -/
def isValidEmail (e : String) : Bool :=
  let cs := e.toList
  let loc := cs.takeWhile (fun c => c ≠ '@')
  let dom := (cs.dropWhile (fun c => c ≠ '@')).drop 1
  (cs.count '@' == 1) && !loc.isEmpty && !dom.isEmpty &&
  dom.contains '.' && !cs.contains ' '

/-- An unvalidated Video request body (fields as sent by the caller). -/
structure RawVideo where
  title : Option String
  description : Option String
  video_url : Option String
  tags : Option (List String)
deriving DecidableEq, Repr

/-- A validated Video payload (schemas.py Video). -/
structure VideoPayload where
  title : String
  description : Option String
  video_url : String
  tags : List String
deriving DecidableEq, Repr

/-- Pydantic validation of a Video body per schemas.py lines 32-36: title
and video_url are required, video_url must be a well-formed URL, tags
default to the empty list. -/
def validateVideo (raw : RawVideo) : Except String VideoPayload :=
  match raw.title with
  | none => .error "title field required"
  | some t =>
    match raw.video_url with
    | none => .error "video_url field required"
    | some u =>
      if !isValidUrl u then .error "video_url invalid URL" else
      .ok { title := t, description := raw.description, video_url := u,
            tags := raw.tags.getD [] }

/-- An unvalidated Contact request body. -/
structure RawContact where
  phone : Option String
  email : Option String
  address : Option String
deriving DecidableEq, Repr

/-- Pydantic validation of a Contact body per schemas.py lines 38-41: all
three fields required and email must be syntactically valid. -/
def validateContact (raw : RawContact) : Except String ContactPayload :=
  match raw.phone, raw.email, raw.address with
  | some ph, some em, some ad =>
    if !isValidEmail em then .error "email invalid email address" else
    .ok { phone := ph, email := em, address := ad }
  | _, _, _ => .error "field required"

/-- The video collection with its identifier counter. -/
structure VideoState where
  nextId : Nat
  docs : List VideoDoc
deriving DecidableEq, Repr

/-- create_video (main.py lines 87-90) behind FastAPI validation: a body
failing validation is rejected before the handler runs and the store is
untouched; a valid body is persisted via create_document (modelled from the
spec, section 4.1). -/
def createVideoEndpoint (raw : RawVideo) (s : VideoState) :
    Except String String × VideoState :=
  match validateVideo raw with
  | .error e => (.error e, s)
  | .ok v =>
    (.ok (objIdStr s.nextId),
     { nextId := s.nextId + 1,
       docs := s.docs ++ [{ oid := s.nextId, title := v.title,
                            description := v.description,
                            video_url := v.video_url, tags := v.tags }] })

/-- set_contact behind FastAPI validation: a body failing validation is
rejected before the handler runs and the store is untouched. -/
def setContactEndpoint (now : Int) (raw : RawContact) (s : ContactState) :
    Except String String × ContactState :=
  match validateContact raw with
  | .error e => (.error e, s)
  | .ok p =>
    let r := set_contact now p s
    (.ok r.2, r.1)

/-- The spec's q-condition for a recipe (spec section 4.2): q occurs as a
case-insensitive substring of the title, of the description, of some
ingredient, or of some tag. -/
def qMatchesRecipe (q : String) (r : RecipeDoc) : Bool :=
  ciSubstr q r.title ||
  (match r.description with | some d => ciSubstr q d | none => false) ||
  r.ingredients.any (fun i => ciSubstr q i) ||
  r.tags.any (fun t => ciSubstr q t)

/-- The spec's tag-condition for a recipe (spec section 4.2): some element
of the tags list contains tag as a case-insensitive substring. -/
def tagMatchesRecipe (tag : String) (r : RecipeDoc) : Bool :=
  r.tags.any (fun t => ciSubstr tag t)

/-- The spec's q-condition for a lesson (spec section 4.2). -/
def qMatchesLesson (q : String) (l : LessonDoc) : Bool :=
  ciSubstr q l.title || ciSubstr q l.content || l.tags.any (fun t => ciSubstr q t)

/-- The spec's q-condition for a video (spec section 4.2). -/
def qMatchesVideo (q : String) (v : VideoDoc) : Bool :=
  ciSubstr q v.title ||
  (match v.description with | some d => ciSubstr q d | none => false) ||
  v.tags.any (fun t => ciSubstr q t)

theorem hasSubChars_nil_pat (l : List Char) : hasSubChars l [] = true := by
  cases l <;> simp [hasSubChars, startsWithChars]

theorem ciSubstr_empty_pat (s : String) : ciSubstr "" s = true := by
  simp [ciSubstr, lowerChars, hasSubChars_nil_pat]

theorem dlookup_recipe_title (r : RecipeDoc) :
    dlookup r.toDoc "title" = some (.str r.title) := rfl

theorem dlookup_recipe_description (r : RecipeDoc) :
    dlookup r.toDoc "description" = some (optStr r.description) := rfl

theorem dlookup_recipe_ingredients (r : RecipeDoc) :
    dlookup r.toDoc "ingredients" = some (.strList r.ingredients) := rfl

theorem dlookup_recipe_tags (r : RecipeDoc) :
    dlookup r.toDoc "tags" = some (.strList r.tags) := rfl

theorem eval_recipeFilter_q (q : String) (r : RecipeDoc) :
    evalFilter (recipeFilter (some q) none) r.toDoc = qMatchesRecipe q r := by
  by_cases hq : q = ""
  · subst hq
    simp [recipeFilter, evalFilter, qMatchesRecipe, ciSubstr_empty_pat]
  · simp [recipeFilter, hq, evalFilter, evalEntry, evalFCond, qMatchesRecipe,
      dlookup_recipe_title, dlookup_recipe_description,
      dlookup_recipe_ingredients, dlookup_recipe_tags]
    cases r.description <;> simp [optStr, evalFCond, Bool.or_assoc]

theorem dlookup_nil (k : String) : dlookup [] k = none := rfl

theorem dlookup_append (a b : Doc) (k : String) :
    dlookup (a ++ b) k =
      (match dlookup a k with | some v => some v | none => dlookup b k) := by
  induction a with
  | nil => simp [dlookup]
  | cons kv rest ih =>
    by_cases h : kv.1 = k
    · simp [dlookup, h]
    · simp [dlookup, h, ih]

theorem dlookup_map_overwrite_self (d : Doc) (k : String) (v : BVal)
    (h : (dlookup d k).isSome) :
    dlookup (d.map (fun kv => (kv.1, if kv.1 = k then v else kv.2))) k =
      some v := by
  induction d with
  | nil => simp [dlookup] at h
  | cons kv rest ih =>
    obtain ⟨k1, v1⟩ := kv
    by_cases hk : k1 = k
    · subst hk
      simp [dlookup]
    · simp only [dlookup, hk, if_neg, if_false] at h
      simp [dlookup, hk, ih h]

theorem dlookup_map_overwrite_ne (d : Doc) (k k' : String) (v : BVal)
    (h : k' ≠ k) :
    dlookup (d.map (fun kv => (kv.1, if kv.1 = k then v else kv.2))) k' =
      dlookup d k' := by
  induction d with
  | nil => simp [dlookup]
  | cons kv rest ih =>
    obtain ⟨k1, v1⟩ := kv
    by_cases hk' : k1 = k'
    · subst hk'
      have h2 : ¬k1 = k := fun hh => h (hh ▸ rfl)
      simp [dlookup, h2]
    · simp [dlookup, hk', ih]

theorem dlookup_dictSet_self (d : Doc) (k : String) (v : BVal) :
    dlookup (dictSet d k v) k = some v := by
  unfold dictSet
  cases hd : dlookup d k with
  | some v' =>
    exact dlookup_map_overwrite_self d k v (by simp [hd])
  | none =>
    rw [dlookup_append, hd]
    simp [dlookup]

theorem dlookup_dictSet_ne (d : Doc) (k k' : String) (v : BVal) (h : k' ≠ k) :
    dlookup (dictSet d k v) k' = dlookup d k' := by
  unfold dictSet
  cases hd : dlookup d k with
  | some v' => exact dlookup_map_overwrite_ne d k k' v h
  | none =>
    rw [dlookup_append]
    cases hd' : dlookup d k' with
    | some v' => simp
    | none =>
      have h2 : ¬k = k' := fun hh => h hh.symm
      simp [dlookup, h2]

theorem dlookup_map_serial (d : Doc) (k : String) :
    dlookup (d.map (fun kv => (kv.1, serialBVal kv.2))) k =
      (dlookup d k).map serialBVal := by
  induction d with
  | nil => simp [dlookup]
  | cons kv rest ih =>
    obtain ⟨k1, v1⟩ := kv
    by_cases h : k1 = k
    · simp [dlookup, h]
    · simp [dlookup, h, ih]

theorem dlookup_popAll_self (d : Doc) (k : String) :
    dlookup (popAll d k) k = none := by
  induction d with
  | nil => simp [popAll, dlookup]
  | cons kv rest ih =>
    obtain ⟨k1, v1⟩ := kv
    by_cases h : k1 = k
    · simp [popAll, h, ih]
    · simp [popAll, dlookup, h, ih]

theorem dlookup_popAll_ne (d : Doc) (k k' : String) (h : k' ≠ k) :
    dlookup (popAll d k) k' = dlookup d k' := by
  induction d with
  | nil => simp [popAll]
  | cons kv rest ih =>
    obtain ⟨k1, v1⟩ := kv
    by_cases hk : k1 = k
    · subst hk
      have h2 : ¬k1 = k' := fun hh => h hh.symm
      simp [popAll, dlookup, h2, ih]
    · simp [popAll, dlookup, hk, ih]

theorem recipeFilter_both (q tag : String) (hq : q ≠ "") (ht : tag ≠ "") :
    recipeFilter (some q) (some tag) =
      [("$or",
        .orV [("title", .regexI q), ("description", .regexI q),
              ("ingredients", .elemMatchRegexI q),
              ("tags", .elemMatchRegexI q)]),
       ("tags", .condV (.elemMatchRegexI tag))] := by
  simp [recipeFilter, hq, ht, setdefault, List.lookup]

theorem eval_recipeFilter_both (q tag : String) (hq : q ≠ "") (ht : tag ≠ "")
    (r : RecipeDoc) :
    evalFilter (recipeFilter (some q) (some tag)) r.toDoc =
      (qMatchesRecipe q r && tagMatchesRecipe tag r) := by
  rw [recipeFilter_both q tag hq ht]
  simp [evalFilter, evalEntry, evalFCond, qMatchesRecipe, tagMatchesRecipe,
    dlookup_recipe_title, dlookup_recipe_description,
    dlookup_recipe_ingredients, dlookup_recipe_tags]
  cases r.description <;> simp [optStr, evalFCond, Bool.or_assoc]

theorem dlookup_lesson_title (l : LessonDoc) :
    dlookup l.toDoc "title" = some (.str l.title) := rfl

theorem dlookup_lesson_content (l : LessonDoc) :
    dlookup l.toDoc "content" = some (.str l.content) := rfl

theorem dlookup_lesson_tags (l : LessonDoc) :
    dlookup l.toDoc "tags" = some (.strList l.tags) := rfl

theorem eval_lessonFilter_q (q : String) (l : LessonDoc) :
    evalFilter (lessonFilter (some q)) l.toDoc = qMatchesLesson q l := by
  by_cases hq : q = ""
  · subst hq
    simp [lessonFilter, evalFilter, qMatchesLesson, ciSubstr_empty_pat]
  · simp [lessonFilter, hq, evalFilter, evalEntry, evalFCond, qMatchesLesson,
      dlookup_lesson_title, dlookup_lesson_content, dlookup_lesson_tags,
      Bool.or_assoc]

theorem dlookup_video_title (v : VideoDoc) :
    dlookup v.toDoc "title" = some (.str v.title) := rfl

theorem dlookup_video_description (v : VideoDoc) :
    dlookup v.toDoc "description" = some (optStr v.description) := rfl

theorem dlookup_video_tags (v : VideoDoc) :
    dlookup v.toDoc "tags" = some (.strList v.tags) := rfl

theorem eval_videoFilter_q (q : String) (v : VideoDoc) :
    evalFilter (videoFilter (some q)) v.toDoc = qMatchesVideo q v := by
  by_cases hq : q = ""
  · subst hq
    simp [videoFilter, evalFilter, qMatchesVideo, ciSubstr_empty_pat]
  · simp [videoFilter, hq, evalFilter, evalEntry, evalFCond, qMatchesVideo,
      dlookup_video_title, dlookup_video_description, dlookup_video_tags]
    cases v.description <;> simp [optStr, evalFCond, Bool.or_assoc]

theorem dlookup_ad_active (a : AdDoc) :
    dlookup a.toDoc "active" = some (.bool a.active) := rfl

theorem eval_adFilter_some (b : Bool) (a : AdDoc) :
    evalFilter (adFilter (some b)) a.toDoc = (a.active == b) := by
  simp [adFilter, evalFilter, evalEntry, dlookup_ad_active]
  cases b <;> cases a.active <;> simp

theorem active_beq_true (a : AdDoc) : (a.active == true) = a.active := by
  cases a.active <;> rfl

theorem applySet_contact_fields (d : Doc) (p : ContactPayload) (now : Int) :
    dlookup (applySet d (p.dump ++ [("updated_at", .dt now)])) "phone" =
        some (.str p.phone) ∧
    dlookup (applySet d (p.dump ++ [("updated_at", .dt now)])) "email" =
        some (.str p.email) ∧
    dlookup (applySet d (p.dump ++ [("updated_at", .dt now)])) "address" =
        some (.str p.address) ∧
    dlookup (applySet d (p.dump ++ [("updated_at", .dt now)])) "updated_at" =
        some (.dt now) := by
  simp only [applySet, ContactPayload.dump, List.cons_append, List.nil_append,
    List.foldl_cons, List.foldl_nil]
  refine ⟨?_, ?_, ?_, ?_⟩
  · rw [dlookup_dictSet_ne _ _ _ _ (by decide),
      dlookup_dictSet_ne _ _ _ _ (by decide),
      dlookup_dictSet_ne _ _ _ _ (by decide), dlookup_dictSet_self]
  · rw [dlookup_dictSet_ne _ _ _ _ (by decide),
      dlookup_dictSet_ne _ _ _ _ (by decide), dlookup_dictSet_self]
  · rw [dlookup_dictSet_ne _ _ _ _ (by decide), dlookup_dictSet_self]
  · rw [dlookup_dictSet_self]

theorem applySet_contact_preserves_id (d : Doc) (p : ContactPayload)
    (now : Int) :
    dlookup (applySet d (p.dump ++ [("updated_at", .dt now)])) "_id" =
      dlookup d "_id" := by
  simp only [applySet, ContactPayload.dump, List.cons_append, List.nil_append,
    List.foldl_cons, List.foldl_nil]
  rw [dlookup_dictSet_ne _ _ _ _ (by decide),
    dlookup_dictSet_ne _ _ _ _ (by decide),
    dlookup_dictSet_ne _ _ _ _ (by decide),
    dlookup_dictSet_ne _ _ _ _ (by decide)]

/-- A sample stored recipe matching the search examples of spec section 8. -/
def sampleRecipe1 : RecipeDoc :=
  { oid := 1, title := "Spicy Ramen", description := some "A quick noodle soup",
    ingredients := ["noodles", "broth"], steps := ["boil", "serve"],
    tags := ["vegan", "quick"], image_url := none, video_url := none }

/-- A second sample stored recipe, matching neither sample search. -/
def sampleRecipe2 : RecipeDoc :=
  { oid := 2, title := "Sushi", description := none, ingredients := ["rice"],
    steps := [], tags := ["fish"], image_url := none, video_url := none }

/-- C2: For every stored recipe document and every given query string q,
list_recipes with q returns exactly the documents in which q occurs as a
case-insensitive unanchored substring of the title, the description, some
ingredient, or some tag; with q absent it returns every document. -/
theorem listRecipes_free_text_search (store : List RecipeDoc) (q : String) :
    list_recipes store (some q) none =
      (store.filter (fun r => qMatchesRecipe q r)).map
        (fun r => serialize_doc r.toDoc) ∧
    list_recipes store none none =
      store.map (fun r => serialize_doc r.toDoc) := by
  constructor
  · unfold list_recipes get_documents
    rw [List.filter_map, List.map_map]
    exact congrArg (List.map (serialize_doc ∘ RecipeDoc.toDoc))
      (List.filter_congr (fun r _ => eval_recipeFilter_q q r))
  · unfold list_recipes get_documents
    rw [show (evalFilter (recipeFilter none none)) = (fun _ : Doc => true)
      from rfl]
    rw [List.filter_true, List.map_map]
    rfl

/-- C3: When both q and tag are given (non-empty), a recipe is returned
exactly when it satisfies the q-condition AND some element of its tags list
contains tag as a case-insensitive substring; neither parameter overrides
the other. -/
theorem listRecipes_q_and_tag_combined (store : List RecipeDoc)
    (q tag : String) (hq : q ≠ "") (ht : tag ≠ "") :
    list_recipes store (some q) (some tag) =
      (store.filter (fun r => qMatchesRecipe q r && tagMatchesRecipe tag r)).map
        (fun r => serialize_doc r.toDoc) := by
  unfold list_recipes get_documents
  rw [List.filter_map, List.map_map]
  exact congrArg (List.map (serialize_doc ∘ RecipeDoc.toDoc))
    (List.filter_congr (fun r _ => eval_recipeFilter_both q tag hq ht r))

/-- Witness for C3 at a concrete store and parameters. -/
theorem listRecipes_q_and_tag_combined_witness :
    list_recipes [sampleRecipe1, sampleRecipe2] (some "RAMEN") (some "VEG") =
      ([sampleRecipe1, sampleRecipe2].filter
        (fun r => qMatchesRecipe "RAMEN" r && tagMatchesRecipe "VEG" r)).map
        (fun r => serialize_doc r.toDoc) :=
  listRecipes_q_and_tag_combined [sampleRecipe1, sampleRecipe2] "RAMEN" "VEG"
    (by decide) (by decide)

/-- C6: With no active parameter list_ads returns exactly the active ads;
with an explicit boolean it returns exactly the ads whose active field
equals it; with the None sentinel no filter is applied and every ad is
returned. -/
theorem listAds_active_filtering (store : List AdDoc) (b : Bool) :
    list_ads_default store =
      (store.filter (fun a => a.active)).map (fun a => serialize_doc a.toDoc) ∧
    list_ads store (some b) =
      (store.filter (fun a => a.active == b)).map
        (fun a => serialize_doc a.toDoc) ∧
    list_ads store none = store.map (fun a => serialize_doc a.toDoc) := by
  refine ⟨?_, ?_, ?_⟩
  · unfold list_ads_default list_ads get_documents
    rw [List.filter_map, List.map_map]
    exact congrArg (List.map (serialize_doc ∘ AdDoc.toDoc))
      (List.filter_congr (fun a _ =>
        (eval_adFilter_some true a).trans (active_beq_true a)))
  · unfold list_ads get_documents
    rw [List.filter_map, List.map_map]
    exact congrArg (List.map (serialize_doc ∘ AdDoc.toDoc))
      (List.filter_congr (fun a _ => eval_adFilter_some b a))
  · unfold list_ads get_documents
    rw [show (evalFilter (adFilter none)) = (fun _ : Doc => true) from rfl]
    rw [List.filter_true, List.map_map]
    rfl

/-- C10: An empty-string q is treated exactly like an absent q by
list_recipes, list_lessons and list_videos: no search filter is built and,
with no other parameter, every stored document is returned. -/
theorem empty_q_treated_as_absent (rstore : List RecipeDoc)
    (lstore : List LessonDoc) (vstore : List VideoDoc) (tag : Option String) :
    recipeFilter (some "") tag = recipeFilter none tag ∧
    lessonFilter (some "") = lessonFilter none ∧
    videoFilter (some "") = videoFilter none ∧
    list_recipes rstore (some "") tag = list_recipes rstore none tag ∧
    list_lessons lstore (some "") = list_lessons lstore none ∧
    list_videos vstore (some "") = list_videos vstore none ∧
    list_recipes rstore (some "") none =
      rstore.map (fun r => serialize_doc r.toDoc) ∧
    list_lessons lstore (some "") =
      lstore.map (fun l => serialize_doc l.toDoc) ∧
    list_videos vstore (some "") =
      vstore.map (fun v => serialize_doc v.toDoc) := by
  refine ⟨?_, rfl, rfl, ?_, rfl, rfl, ?_, ?_, ?_⟩
  · cases tag <;> rfl
  · cases tag <;> rfl
  · unfold list_recipes get_documents
    rw [show (evalFilter (recipeFilter (some "") none)) =
      (fun _ : Doc => true) from rfl]
    rw [List.filter_true, List.map_map]
    rfl
  · unfold list_lessons get_documents
    rw [show (evalFilter (lessonFilter (some ""))) =
      (fun _ : Doc => true) from rfl]
    rw [List.filter_true, List.map_map]
    rfl
  · unfold list_videos get_documents
    rw [show (evalFilter (videoFilter (some ""))) =
      (fun _ : Doc => true) from rfl]
    rw [List.filter_true, List.map_map]
    rfl

/-- A sample stored contact document, as an earlier setContact would have
left it. -/
def sampleContactDoc : Doc :=
  [("_id", .oid 3), ("phone", .str "0"), ("email", .str "old@x.co"),
   ("address", .str "old")]

/-- A sample valid contact payload. -/
def sampleContactPayload : ContactPayload :=
  { phone := "1", email := "new@x.co", address := "addr" }

/-- C1: With exactly one stored Contact document, setContact leaves exactly
one document whose fields match the new payload and returns the
pre-existing identifier; two setContact calls from empty leave exactly one
document with the second payload's fields. -/
theorem setContact_singleton_upsert
    (s : ContactState) (d : Doc) (n : Nat) (p : ContactPayload) (now : Int)
    (hdocs : s.docs = [d]) (hid : dlookup d "_id" = some (.oid n)) :
    (∃ d', (set_contact now p s).1.docs = [d'] ∧
       dlookup d' "phone" = some (.str p.phone) ∧
       dlookup d' "email" = some (.str p.email) ∧
       dlookup d' "address" = some (.str p.address) ∧
       (set_contact now p s).2 = objIdStr n) ∧
    (∀ (k : Nat) (t1 t2 : Int) (p1 p2 : ContactPayload),
       ∃ d', (set_contact t2 p2 (set_contact t1 p1 ⟨k, []⟩).1).1.docs = [d'] ∧
         dlookup d' "phone" = some (.str p2.phone) ∧
         dlookup d' "email" = some (.str p2.email) ∧
         dlookup d' "address" = some (.str p2.address)) := by
  constructor
  · refine ⟨applySet d (p.dump ++ [("updated_at", .dt now)]), ?_,
      (applySet_contact_fields d p now).1,
      (applySet_contact_fields d p now).2.1,
      (applySet_contact_fields d p now).2.2.1, ?_⟩
    · simp [set_contact, contactWrite, contactFindOne, hdocs]
    · simp [set_contact, contactWrite, contactFindOne, hdocs, docIdStr, hid,
        bvalStr]
  · intro k t1 t2 p1 p2
    refine ⟨applySet (("_id", .oid k) :: p1.dump)
        (p2.dump ++ [("updated_at", .dt t2)]), ?_,
      (applySet_contact_fields _ p2 t2).1,
      (applySet_contact_fields _ p2 t2).2.1,
      (applySet_contact_fields _ p2 t2).2.2.1⟩
    simp [set_contact, contactWrite, contactFindOne]

/-- Witness for C1 at a concrete state, document and payload. -/
theorem setContact_singleton_upsert_witness :
    (∃ d', (set_contact 7 sampleContactPayload ⟨5, [sampleContactDoc]⟩).1.docs
         = [d'] ∧
       dlookup d' "phone" = some (.str sampleContactPayload.phone) ∧
       dlookup d' "email" = some (.str sampleContactPayload.email) ∧
       dlookup d' "address" = some (.str sampleContactPayload.address) ∧
       (set_contact 7 sampleContactPayload ⟨5, [sampleContactDoc]⟩).2
         = objIdStr 3) ∧
    (∀ (k : Nat) (t1 t2 : Int) (p1 p2 : ContactPayload),
       ∃ d', (set_contact t2 p2 (set_contact t1 p1 ⟨k, []⟩).1).1.docs = [d'] ∧
         dlookup d' "phone" = some (.str p2.phone) ∧
         dlookup d' "email" = some (.str p2.email) ∧
         dlookup d' "address" = some (.str p2.address)) :=
  setContact_singleton_upsert ⟨5, [sampleContactDoc]⟩ sampleContactDoc 3
    sampleContactPayload 7 rfl rfl

/-- C4 (code evidence): the very first setContact call, from an empty
collection, persists the raw payload: the stored document carries no
updated_at timestamp, because the insert branch passes the payload rather
than the timestamped dict to create_document (main.py line 105). -/
theorem setContact_first_write_lacks_timestamp :
    (set_contact 7 sampleContactPayload ⟨0, []⟩).1.docs =
      [[("_id", .oid 0), ("phone", .str "1"), ("email", .str "new@x.co"),
        ("address", .str "addr")]] ∧
    dlookup (set_contact 7 sampleContactPayload ⟨0, []⟩).1.docs.headI
      "updated_at" = none := by
  constructor <;> rfl

/-- C9 (counterexample): in the read-then-write decomposition of
set_contact, the interleaving in which both calls read the empty collection
before either writes ends with two Contact documents in storage. -/
theorem contact_upsert_race_counterexample :
    ((contactWrite 2 { phone := "2", email := "b@x.co", address := "B" }
        (contactFindOne ⟨0, []⟩)
        ((contactWrite 1 { phone := "1", email := "a@x.co", address := "A" }
          (contactFindOne ⟨0, []⟩) ⟨0, []⟩).1)).1).docs.length = 2 := rfl

/-- C9 (amended): set_contact is a separate read (find_one) followed by a
write decided by the read — not a single atomic storage operation — and the
pair admits a double-insert interleaving from the empty state. -/
theorem setContact_read_then_write_race :
    (∀ (now : Int) (p : ContactPayload) (s : ContactState),
       set_contact now p s = contactWrite now p (contactFindOne s) s) ∧
    ((contactWrite 4 { phone := "2", email := "b@x.co", address := "B" }
        (contactFindOne ⟨0, []⟩)
        ((contactWrite 3 { phone := "1", email := "a@x.co", address := "A" }
          (contactFindOne ⟨0, []⟩) ⟨0, []⟩).1)).1).docs.length = 2 :=
  ⟨fun _ _ _ => rfl, rfl⟩

/-- C8: With the store available, getContact on an empty collection returns
the empty object (no error), and with a stored document returns that
document serialized. -/
theorem getContact_empty_returns_empty_object
    (s : ContactState) (hs : s.docs = []) (s' : ContactState) (d : Doc)
    (rest : List Doc) (hs' : s'.docs = d :: rest) :
    get_contact true s = .ok [] ∧
    get_contact true s' = .ok (serialize_doc d) := by
  constructor
  · simp [get_contact, hs]
  · simp [get_contact, hs']

/-- Witness for C8 at a concrete empty and non-empty state. -/
theorem getContact_empty_returns_empty_object_witness :
    get_contact true ⟨0, []⟩ = .ok [] ∧
    get_contact true ⟨5, [sampleContactDoc]⟩ =
      .ok (serialize_doc sampleContactDoc) :=
  getContact_empty_returns_empty_object ⟨0, []⟩ rfl ⟨5, [sampleContactDoc]⟩
    sampleContactDoc [] rfl

/-- A sample stored document with an identifier and a date/time field. -/
def sampleTimedDoc : Doc :=
  [("_id", .oid 9), ("title", .str "x"), ("updated_at", .dt 4)]

/-- C5: serialize_doc removes the storage-internal identifier, exposes it
as the public string field id, converts every date/time value to its
ISO-8601 string and leaves every other field unchanged; and every document
leaving a list or get operation is the serialization of a stored
document. -/
theorem serialize_doc_boundary (d : Doc) (n : Nat)
    (h : dlookup d "_id" = some (.oid n)) :
    dlookup (serialize_doc d) "_id" = none ∧
    dlookup (serialize_doc d) "id" = some (.str (objIdStr n)) ∧
    (∀ k, k ≠ "_id" → k ≠ "id" →
      dlookup (serialize_doc d) k = (dlookup d k).map serialBVal) ∧
    (∀ (store : List RecipeDoc) (q tag : Option String) (x : Doc),
      x ∈ list_recipes store q tag →
        ∃ r ∈ store, x = serialize_doc r.toDoc) ∧
    (∀ (store : List LessonDoc) (q : Option String) (x : Doc),
      x ∈ list_lessons store q → ∃ l ∈ store, x = serialize_doc l.toDoc) ∧
    (∀ (store : List VideoDoc) (q : Option String) (x : Doc),
      x ∈ list_videos store q → ∃ v ∈ store, x = serialize_doc v.toDoc) ∧
    (∀ (store : List AdDoc) (active : Option Bool) (x : Doc),
      x ∈ list_ads store active → ∃ a ∈ store, x = serialize_doc a.toDoc) ∧
    (∀ (s : ContactState) (x : Doc), get_contact true s = .ok x →
      x = [] ∨ ∃ d0 ∈ s.docs, x = serialize_doc d0) := by
  have hne : d.isEmpty = false := by
    cases d with
    | nil => simp [dlookup] at h
    | cons a l => rfl
  have hser : serialize_doc d =
      (dictSet (popAll d "_id") "id" (.str (bvalStr (.oid n)))).map
        (fun kv => (kv.1, serialBVal kv.2)) := by
    unfold serialize_doc
    rw [hne, h]
    rfl
  refine ⟨?_, ?_, ?_, ?_, ?_, ?_, ?_, ?_⟩
  · rw [hser, dlookup_map_serial,
      dlookup_dictSet_ne _ _ _ _ (by decide), dlookup_popAll_self]
    rfl
  · rw [hser, dlookup_map_serial, dlookup_dictSet_self]
    rfl
  · intro k hk1 hk2
    rw [hser, dlookup_map_serial, dlookup_dictSet_ne _ _ _ _ hk2,
      dlookup_popAll_ne _ _ _ hk1]
  · intro store q tag x hx
    unfold list_recipes get_documents at hx
    obtain ⟨y, hy, rfl⟩ := List.mem_map.mp hx
    obtain ⟨r, hr, rfl⟩ := List.mem_map.mp (List.mem_of_mem_filter hy)
    exact ⟨r, hr, rfl⟩
  · intro store q x hx
    unfold list_lessons get_documents at hx
    obtain ⟨y, hy, rfl⟩ := List.mem_map.mp hx
    obtain ⟨l, hl, rfl⟩ := List.mem_map.mp (List.mem_of_mem_filter hy)
    exact ⟨l, hl, rfl⟩
  · intro store q x hx
    unfold list_videos get_documents at hx
    obtain ⟨y, hy, rfl⟩ := List.mem_map.mp hx
    obtain ⟨v, hv, rfl⟩ := List.mem_map.mp (List.mem_of_mem_filter hy)
    exact ⟨v, hv, rfl⟩
  · intro store active x hx
    unfold list_ads get_documents at hx
    obtain ⟨y, hy, rfl⟩ := List.mem_map.mp hx
    obtain ⟨a, ha, rfl⟩ := List.mem_map.mp (List.mem_of_mem_filter hy)
    exact ⟨a, ha, rfl⟩
  · intro s x hx
    cases hd : s.docs with
    | nil =>
      left
      simp [get_contact, hd] at hx
      exact hx
    | cons d0 rest =>
      right
      refine ⟨d0, by simp [hd], ?_⟩
      simp [get_contact, hd] at hx
      exact hx.symm

/-- Witness for C5 at a concrete stored document. -/
theorem serialize_doc_boundary_witness :
    dlookup (serialize_doc sampleTimedDoc) "_id" = none ∧
    dlookup (serialize_doc sampleTimedDoc) "id" =
      some (.str (objIdStr 9)) ∧
    (∀ k, k ≠ "_id" → k ≠ "id" →
      dlookup (serialize_doc sampleTimedDoc) k =
        (dlookup sampleTimedDoc k).map serialBVal) ∧
    (∀ (store : List RecipeDoc) (q tag : Option String) (x : Doc),
      x ∈ list_recipes store q tag →
        ∃ r ∈ store, x = serialize_doc r.toDoc) ∧
    (∀ (store : List LessonDoc) (q : Option String) (x : Doc),
      x ∈ list_lessons store q → ∃ l ∈ store, x = serialize_doc l.toDoc) ∧
    (∀ (store : List VideoDoc) (q : Option String) (x : Doc),
      x ∈ list_videos store q → ∃ v ∈ store, x = serialize_doc v.toDoc) ∧
    (∀ (store : List AdDoc) (active : Option Bool) (x : Doc),
      x ∈ list_ads store active → ∃ a ∈ store, x = serialize_doc a.toDoc) ∧
    (∀ (s : ContactState) (x : Doc), get_contact true s = .ok x →
      x = [] ∨ ∃ d0 ∈ s.docs, x = serialize_doc d0) :=
  serialize_doc_boundary sampleTimedDoc 9 rfl

/-- C7: A createVideo request lacking video_url and a setContact request
with a syntactically invalid email are both rejected by validation with an
error, and in both cases the store is left exactly as it was. -/
theorem validation_rejects_without_side_effect
    (rawV : RawVideo) (sv : VideoState) (hv : rawV.video_url = none)
    (rawC : RawContact) (sc : ContactState) (now : Int) (e : String)
    (he : rawC.email = some e) (hbad : isValidEmail e = false) :
    ((∃ msg, (createVideoEndpoint rawV sv).1 = .error msg) ∧
     (createVideoEndpoint rawV sv).2 = sv) ∧
    ((∃ msg, (setContactEndpoint now rawC sc).1 = .error msg) ∧
     (setContactEndpoint now rawC sc).2 = sc) := by
  constructor
  · obtain ⟨t, dsc, vu, tg⟩ := rawV
    replace hv : vu = none := hv
    subst hv
    cases t <;> exact ⟨⟨_, rfl⟩, rfl⟩
  · obtain ⟨ph, em, ad⟩ := rawC
    replace he : em = some e := he
    subst he
    cases ph <;> cases ad <;>
      simp [setContactEndpoint, validateContact, hbad]

/-- Witness for C7 at concrete requests: a Video body without video_url and
a Contact body whose email is not an email address. -/
theorem validation_rejects_without_side_effect_witness :
    ((∃ msg, (createVideoEndpoint
        { title := some "t", description := none, video_url := none,
          tags := none } ⟨0, []⟩).1 = .error msg) ∧
     (createVideoEndpoint
        { title := some "t", description := none, video_url := none,
          tags := none } ⟨0, []⟩).2 = ⟨0, []⟩) ∧
    ((∃ msg, (setContactEndpoint 0
        { phone := some "1", email := some "not-an-email",
          address := some "a" } ⟨0, []⟩).1 = .error msg) ∧
     (setContactEndpoint 0
        { phone := some "1", email := some "not-an-email",
          address := some "a" } ⟨0, []⟩).2 = ⟨0, []⟩) :=
  validation_rejects_without_side_effect
    { title := some "t", description := none, video_url := none,
      tags := none } ⟨0, []⟩ rfl
    { phone := some "1", email := some "not-an-email", address := some "a" }
    ⟨0, []⟩ 0 "not-an-email" rfl rfl

end CulinaryBackend
